import Mathlib

/-!
Shallow embedding of the checkout subsystem of the fastapi_enjoyer
e-commerce backend (`app/routers/orders.py`), together with the store
model it operates on.

Money is modelled as `ℚ`: Python `Decimal` arithmetic on the values that
occur here (prices with a fixed number of decimal places, multiplied by
integer quantities and summed) is exact, and `ℚ` captures exactness.
Machine integers are `Int` (Python ints are unbounded).

The SQLAlchemy session semantics are embedded explicitly: during the
checkout loop, `product.stock -= quantity` mutates only in-session
state (the `prods` accumulator threaded through `processItems`); the
store is replaced only at the `db.commit()` point, and every error path
raised before the commit leaves the store untouched, because
`get_async_db` (`app/db_depends.py`) yields the session without
committing and closes it on the way out.
-/

/-- A product row. Modelled from the spec: the SQLAlchemy model file
`app/models/products.py` is not in `src/`; fields follow §3 of the spec
("id, name, unit price (fixed-point decimal), stock (non-negative
integer), active flag", price optional) and the attributes the routers
read (`id`, `name`, `price`, `stock`, `is_active`). -/
structure Product where
  id : Nat
  name : String
  price : Option ℚ
  stock : Int
  is_active : Bool
  deriving Repr, DecidableEq

/-- A cart line. Modelled from the spec: `app/models/cart_items.py` is
not in `src/`; fields follow §3 ("belongs to exactly one user;
references one product; quantity ≥ 1") and the attributes
`checkout_order` reads (`id`, `user_id`, `product_id`, `quantity`). -/
structure CartItem where
  id : Nat
  user_id : Nat
  product_id : Nat
  quantity : Int
  deriving Repr, DecidableEq

/-- An order item as built by `checkout_order` (line 55–56 of
`orders.py`): `OrderItemModel(product_id=..., quantity=...,
unit_price=..., total_price=...)`. -/
structure OrderItem where
  product_id : Nat
  quantity : Int
  unit_price : ℚ
  total_price : ℚ
  deriving Repr, DecidableEq

/-- An order. `id` is the autoincrement primary key assigned at commit;
`status` is modelled from the spec (§3: "initially created/pending", the
model file `app/models/orders.py` being absent from `src/`). -/
structure Order where
  id : Nat
  user_id : Nat
  status : String
  total_amount : ℚ
  items : List OrderItem
  deriving Repr, DecidableEq

/-- The relational store: the three tables the checkout path touches.
Rows are kept in primary-key (insertion) order, so a query with
`ORDER BY id` returns a sublist in list order. -/
structure Store where
  products : List Product
  cartItems : List CartItem
  orders : List Order
  deriving Repr, DecidableEq

/-- The errors `checkout_order` can produce.  Each constructor carries
exactly the data the code interpolates into the `HTTPException` detail
string (see `CheckoutError.detail` below):
* `emptyCart` — line 38, 400 "Cart is empty";
* `productUnavailable` — line 46, 400 "Product {id} is unavailable",
  raised when the product exists but `is_active` is false;
* `insufficientStock` — line 48, 400 "Not enough stock for {name}":
  the detail holds the product name only, neither the requested
  quantity nor the available stock;
* `missingPrice` — line 50, 400 "Product {name} has no price set";
* `noneAttributeError` — when `cart_item.product` is `None`, line 46
  evaluates `product.id` on `None`, so Python raises `AttributeError`
  before the `HTTPException` is constructed; FastAPI turns the escaped
  exception into a 500 response;
* `loadFailed` — line 69, 500 "Failed to load created order". -/
inductive CheckoutError where
  | emptyCart
  | productUnavailable (productId : Nat)
  | insufficientStock (productName : String)
  | missingPrice (productName : String)
  | noneAttributeError
  | loadFailed
  deriving Repr, DecidableEq

/-- The HTTP status code each error surfaces with. -/
def CheckoutError.status : CheckoutError → Nat
  | .emptyCart => 400
  | .productUnavailable _ => 400
  | .insufficientStock _ => 400
  | .missingPrice _ => 400
  | .noneAttributeError => 500
  | .loadFailed => 500

/-- The detail string of the HTTP response, mirroring the f-strings of
`orders.py` (an `AttributeError` has no `detail`; FastAPI renders a
generic "Internal Server Error", which we use as its detail). -/
def CheckoutError.detail : CheckoutError → String
  | .emptyCart => "Cart is empty"
  | .productUnavailable pid => "Product " ++ toString pid ++ " is unavailable"
  | .insufficientStock n => "Not enough stock for " ++ n
  | .missingPrice n => "Product " ++ n ++ " has no price set"
  | .noneAttributeError => "Internal Server Error"
  | .loadFailed => "Failed to load created order"

deriving instance DecidableEq for Except

/-- Relationship resolution: `cart_item.product` under the session
identity map — the first (the only, for a real primary key) product row
with the given id, or `none` for a dangling `product_id`. -/
def findProduct : List Product → Nat → Option Product
  | [], _ => none
  | p :: rest, pid => if p.id == pid then some p else findProduct rest pid

/-- The in-session effect of `product.stock = v` on the identity map:
the row with id `pid` now carries stock `v`. -/
def updateStock (prods : List Product) (pid : Nat) (v : Int) : List Product :=
  prods.map (fun p => if p.id == pid then { p with stock := v } else p)

/-- Lines 32–36 of `orders.py`: the cart lines of `user_id`, ordered by
id (the store keeps rows in id order, so filtering preserves it). -/
def loadCart (s : Store) (uid : Nat) : List CartItem :=
  s.cartItems.filter (fun ci => ci.user_id == uid)

/-- Total quantity a list of cart lines requests for a given product
(the lines of one product need not be unique; the loader's consumers
assume at most one, but the code does not enforce it). -/
def cartQty (cart : List CartItem) (pid : Nat) : Int :=
  (cart.map (fun ci => if ci.product_id == pid then ci.quantity else 0)).sum

/-- The `for cart_item in cart_items:` loop, lines 43–61 of `orders.py`,
threading the session product state, the running `total_amount`, and the
accumulated `order.items`.  Guard order follows the source exactly:
1. `if not product or not product.is_active` — a `None` product hits
   `product.id` in the detail f-string and raises `AttributeError`;
2. `if cart_item.quantity > product.stock`;
3. `if product.price is None`;
then `total_price = quantity * price`, the item is appended, and
`product.stock -= quantity` mutates the session row. -/
def processItems : List Product → List CartItem → ℚ → List OrderItem →
    Except CheckoutError (List Product × ℚ × List OrderItem)
  | prods, [], total, items => .ok (prods, total, items)
  | prods, ci :: rest, total, items =>
    match findProduct prods ci.product_id with
    | none => .error .noneAttributeError
    | some p =>
      if !p.is_active then .error (.productUnavailable p.id)
      else if p.stock < ci.quantity then .error (.insufficientStock p.name)
      else
        match p.price with
        | none => .error (.missingPrice p.name)
        | some pr =>
          let tp : ℚ := (ci.quantity : ℚ) * pr
          processItems (updateStock prods p.id (p.stock - ci.quantity)) rest
            (total + tp)
            (items ++ [⟨p.id, ci.quantity, pr, tp⟩])

/-- The autoincrement id the store hands the next inserted order. -/
def nextOrderId (orders : List Order) : Nat :=
  (orders.foldr (fun o m => max o.id m) 0) + 1

/-- `_load_order_with_items` (lines 18–27): the order with the given id,
if any. -/
def loadOrderWithItems (s : Store) (oid : Nat) : Option Order :=
  s.orders.find? (fun o => o.id == oid)

/-- `checkout_order`, lines 31–70 of `orders.py`.  Returns the response
(`Except` of error or created order) together with the store as the call
leaves it.  An exception raised before `db.commit()` leaves the store
unchanged, because `get_async_db` never commits on behalf of the
handler; the commit installs the session product rows, deletes the
user's cart lines, and appends the order; afterwards the order is
re-loaded and a failure to find it is the 500 of lines 68–69. -/
def checkout (s : Store) (uid : Nat) : Except CheckoutError Order × Store :=
  let cart := loadCart s uid
  if cart.isEmpty then (.error .emptyCart, s)
  else
    match processItems s.products cart 0 [] with
    | .error e => (.error e, s)
    | .ok (prods, total, items) =>
      let order : Order :=
        { id := nextOrderId s.orders, user_id := uid, status := "created",
          total_amount := total, items := items }
      let committed : Store :=
        { products := prods,
          cartItems := s.cartItems.filter (fun ci => !(ci.user_id == uid)),
          orders := s.orders ++ [order] }
      match loadOrderWithItems committed order.id with
      | none => (.error .loadFailed, committed)
      | some o => (.ok o, committed)

/-- The error `get_order` (lines 96–101) raises both when no order has
the requested id and when the order belongs to another user: a 404 with
detail "Order not found" — never a 403. -/
structure HTTPError where
  status : Nat
  detail : String
  deriving Repr, DecidableEq

/-- The single error value `get_order` can produce. -/
def orderNotFound : HTTPError := ⟨404, "Order not found"⟩

/-- `get_order`, lines 96–101 of `orders.py`: load the order by id, and
404 if it is absent or owned by someone else. -/
def getOrder (s : Store) (uid : Nat) (oid : Nat) : Except HTTPError Order :=
  match loadOrderWithItems s oid with
  | none => .error orderNotFound
  | some o => if o.user_id != uid then .error orderNotFound else .ok o

/-!
### Interleaving model for concurrent checkouts

`checkout_order` suspends at two `await` points that matter to the
stock race: the initial `db.scalars(...)` that loads the cart lines and
their products into the session (lines 32–36), and the
`db.execute(delete ...)` / `db.commit()` pair that flushes the session
and commits (lines 64–65).  Everything in between — the validation
loop, the stock checks, and the in-session `product.stock -= quantity`
assignments — is synchronous Python operating on the session objects
captured at load time.  The flush emits plain
`UPDATE products SET stock = <session value> WHERE id = <pid>`
statements: a blind write of the value computed from the load-time
snapshot, with no `stock >= quantity` condition attached.

A checkout invocation is therefore modelled as two atomic phases
against the shared store: `loadPhase` (snapshot the cart and product
rows) and `commitPhase` (validate against the snapshot and, on success,
write the snapshot-derived stock values, insert the order, and delete
the cart lines).  Two invocations A and B interleave as any sequence of
their phases; each phase itself commits atomically, which only
restricts the schedules, so any bad outcome exhibited here is a real
schedule of the code.
-/

/-- What one session holds after its load `await`: the user's cart
lines and the product rows as of load time. -/
structure Snap where
  cart : List CartItem
  prods : List Product
  deriving Repr, DecidableEq

/-- The load phase: lines 32–36 of `orders.py`. -/
def loadPhase (s : Store) (uid : Nat) : Snap :=
  ⟨loadCart s uid, s.products⟩

/-- The session flush: for each product row the session dirtied (those
referenced by a processed cart line), `UPDATE products SET stock = v`
with the session's value `v` — an unconditional write. -/
def flushStocks (storeProds sessProds : List Product) (pids : List Nat) :
    List Product :=
  storeProds.map (fun p =>
    if pids.contains p.id then
      match findProduct sessProds p.id with
      | some q => { p with stock := q.stock }
      | none => p
    else p)

/-- The post-load remainder of `checkout_order` (lines 37–70): the
empty-cart check and validation loop run against the snapshot, and on
success the commit flushes the snapshot-derived stock values into the
store, deletes the user's cart lines, and inserts the order. -/
def commitPhase (s : Store) (uid : Nat) (sn : Snap) :
    Except CheckoutError Order × Store :=
  if sn.cart.isEmpty then (.error .emptyCart, s)
  else
    match processItems sn.prods sn.cart 0 [] with
    | .error e => (.error e, s)
    | .ok (prods, total, items) =>
      let order : Order :=
        { id := nextOrderId s.orders, user_id := uid, status := "created",
          total_amount := total, items := items }
      let committed : Store :=
        { products := flushStocks s.products prods (sn.cart.map CartItem.product_id),
          cartItems := s.cartItems.filter (fun ci => !(ci.user_id == uid)),
          orders := s.orders ++ [order] }
      match loadOrderWithItems committed order.id with
      | none => (.error .loadFailed, committed)
      | some o => (.ok o, committed)

/-- A scheduler action: one of the two phases of invocation A or B. -/
inductive Act where
  | loadA
  | loadB
  | commitA
  | commitB
  deriving Repr, DecidableEq

/-- Shared store plus the per-invocation session state: the snapshot
each invocation has loaded (if it has reached its load point) and the
response it has produced (once it has committed or raised). -/
structure ConcState where
  store : Store
  snapA : Option Snap
  snapB : Option Snap
  outA : Option (Except CheckoutError Order)
  outB : Option (Except CheckoutError Order)
  deriving Repr, DecidableEq

/-- One scheduler step; a commit before the corresponding load is a
no-op (no such schedule is ever considered). -/
def stepAct (uidA uidB : Nat) (c : ConcState) : Act → ConcState
  | .loadA => { c with snapA := some (loadPhase c.store uidA) }
  | .loadB => { c with snapB := some (loadPhase c.store uidB) }
  | .commitA =>
    match c.snapA with
    | none => c
    | some sn =>
      let r := commitPhase c.store uidA sn
      { c with store := r.2, outA := some r.1 }
  | .commitB =>
    match c.snapB with
    | none => c
    | some sn =>
      let r := commitPhase c.store uidB sn
      { c with store := r.2, outB := some r.1 }

/-- Run a schedule of phases for two concurrent checkout invocations by
users `uidA` and `uidB`. -/
def runActs (uidA uidB : Nat) (init : ConcState) (acts : List Act) : ConcState :=
  acts.foldl (stepAct uidA uidB) init

/-!
### Concrete store instances

Small concrete stores used to evaluate the embedded handlers on
explicit inputs (the spec's own scenarios A–D among them).
-/

/-- An active product: id 1, price 10, stock 5. -/
def prodA : Product := ⟨1, "Widget", some 10, 5, true⟩

/-- An active product with low stock: id 2, price 10, stock 3. -/
def prodB : Product := ⟨2, "Gadget", some 10, 3, true⟩

/-- An inactive product: id 3. -/
def prodInactive : Product := ⟨3, "Relic", some 10, 5, false⟩

/-- Scenario A: user 7's cart holds one line of 2 × product 1 (stock 5). -/
def storeOk : Store := ⟨[prodA], [⟨1, 7, 1, 2⟩], []⟩

/-- The order scenario A's checkout creates. -/
def okOrder : Order := ⟨1, 7, "created", 20, [⟨1, 2, 10, 20⟩]⟩

/-- The store scenario A's checkout leaves behind. -/
def storeOkAfter : Store := ⟨[⟨1, "Widget", some 10, 3, true⟩], [], [okOrder]⟩

/-- A valid line (2 × product 1, stock 5) followed by a failing line
(10 × product 2, stock 3) in user 7's cart. -/
def storeMixed : Store :=
  ⟨[prodA, prodB], [⟨1, 7, 1, 2⟩, ⟨2, 7, 2, 10⟩], []⟩

/-- Scenario B: one line requesting 10 × product 2, which has stock 3. -/
def storeShort : Store := ⟨[prodB], [⟨1, 7, 2, 10⟩], []⟩

/-- Same product name as `storeShort` but requested 99 and stock 1. -/
def storeShort2 : Store :=
  ⟨[⟨2, "Gadget", some 10, 1, true⟩], [⟨1, 7, 2, 99⟩], []⟩

/-- A cart line whose `product_id` 99 matches no product row: the
`cart_item.product` relationship resolves to `None`. -/
def storeDangling : Store := ⟨[prodA], [⟨1, 7, 99, 2⟩], []⟩

/-- Scenario D: the first cart line references the inactive product 3;
a valid line on product 1 follows it. -/
def storeInactive : Store :=
  ⟨[prodInactive, prodA], [⟨1, 7, 3, 1⟩, ⟨2, 7, 1, 1⟩], []⟩

/-- Scenario C: user 7 has no cart lines. -/
def storeEmptyCart : Store := ⟨[prodA], [], []⟩

/-- Two cart lines of the same product 1 (stock 5), 2 units each. -/
def storeDup : Store := ⟨[prodA], [⟨1, 7, 1, 2⟩, ⟨2, 7, 1, 2⟩], []⟩

/-- The order the duplicate-line checkout creates. -/
def dupOrder : Order :=
  ⟨1, 7, "created", 40, [⟨1, 2, 10, 20⟩, ⟨1, 2, 10, 20⟩]⟩

/-- The store the duplicate-line checkout leaves: stock 5 − (2+2) = 1. -/
def storeDupAfter : Store :=
  ⟨[⟨1, "Widget", some 10, 1, true⟩], [], [dupOrder]⟩

/-- An order owned by user 1, for the `get_order` scoping theorems. -/
def orderX : Order := ⟨1, 1, "created", 0, []⟩

/-- A store holding only `orderX`. -/
def storeOrders : Store := ⟨[], [], [orderX]⟩

/-- The shared product of the concurrency scenario: stock exactly 1. -/
def prodRace : Product := ⟨1, "Widget", some 10, 1, true⟩

/-- Users 1 and 2 each have one cart line requesting 1 × product 1,
whose stock is exactly 1. -/
def storeRace : Store := ⟨[prodRace], [⟨1, 1, 1, 1⟩, ⟨2, 2, 1, 1⟩], []⟩

/-- Initial concurrent state: neither invocation has run yet. -/
def raceInit : ConcState := ⟨storeRace, none, none, none, none⟩

/-- The racy schedule: both invocations load before either commits. -/
def raceFinal : ConcState :=
  runActs 1 2 raceInit [.loadA, .loadB, .commitA, .commitB]

/-- The serialized schedule: A runs to completion before B loads. -/
def serialFinal : ConcState :=
  runActs 1 2 raceInit [.loadA, .commitA, .loadB, .commitB]

/-!
### Basic lemmas about the session primitives
-/

theorem findProduct_some_id {prods : List Product} {pid : Nat} {p : Product}
    (h : findProduct prods pid = some p) : p.id = pid := by
  induction prods with
  | nil => simp [findProduct] at h
  | cons q rest ih =>
    by_cases hq : q.id = pid
    · rw [findProduct, if_pos (by simpa using hq)] at h
      cases h
      exact hq
    · rw [findProduct, if_neg (by simpa using hq)] at h
      exact ih h

theorem findProduct_map {f : Product → Product} (hf : ∀ p, (f p).id = p.id)
    (prods : List Product) (pid : Nat) :
    findProduct (prods.map f) pid = (findProduct prods pid).map f := by
  induction prods with
  | nil => rfl
  | cons q rest ih =>
    by_cases hq : q.id = pid
    · rw [List.map_cons, findProduct, if_pos (by simp [hf, hq]),
        findProduct, if_pos (by simpa using hq)]
      rfl
    · rw [List.map_cons, findProduct, if_neg (by simp [hf, hq]),
        findProduct, if_neg (by simpa using hq), ih]

theorem findProduct_updateStock (prods : List Product) (pid : Nat) (v : Int)
    (pid' : Nat) :
    findProduct (updateStock prods pid v) pid' =
      (findProduct prods pid').map
        (fun p => if p.id == pid then { p with stock := v } else p) := by
  apply findProduct_map
  intro p
  by_cases h : p.id = pid <;> simp [h]

theorem cartQty_nil (pid : Nat) : cartQty [] pid = 0 := rfl

theorem cartQty_cons (ci : CartItem) (rest : List CartItem) (pid : Nat) :
    cartQty (ci :: rest) pid =
      (if ci.product_id == pid then ci.quantity else 0) + cartQty rest pid := by
  simp [cartQty]

theorem cartQty_not_mem {cart : List CartItem} {pid : Nat}
    (h : pid ∉ cart.map CartItem.product_id) : cartQty cart pid = 0 := by
  induction cart with
  | nil => rfl
  | cons ci rest ih =>
    simp only [List.map_cons, List.mem_cons, not_or] at h
    rw [cartQty_cons, if_neg (by simpa using fun he => h.1 he.symm), ih h.2]
    ring

theorem processItems_nil (prods : List Product) (total : ℚ)
    (items : List OrderItem) :
    processItems prods [] total items = .ok (prods, total, items) := rfl

theorem processItems_cons_ok {prods : List Product} {ci : CartItem}
    {rest : List CartItem} {total : ℚ} {items : List OrderItem}
    {r : List Product × ℚ × List OrderItem}
    (h : processItems prods (ci :: rest) total items = .ok r) :
    ∃ p pr, findProduct prods ci.product_id = some p ∧ p.is_active = true ∧
      ci.quantity ≤ p.stock ∧ p.price = some pr ∧
      processItems (updateStock prods p.id (p.stock - ci.quantity)) rest
        (total + (ci.quantity : ℚ) * pr)
        (items ++ [⟨p.id, ci.quantity, pr, (ci.quantity : ℚ) * pr⟩]) = .ok r := by
  simp only [processItems] at h
  split at h
  · exact absurd h (by simp)
  case _ p hfp =>
    split at h
    · exact absurd h (by simp)
    case _ ha =>
      split at h
      · exact absurd h (by simp)
      case _ hs =>
        split at h
        · exact absurd h (by simp)
        case _ pr hpr =>
          exact ⟨p, pr, hfp, by simpa using ha, Int.not_lt.mp hs, hpr, h⟩

theorem processItems_ok_stock (cart : List CartItem) :
    ∀ {prods : List Product} {total : ℚ} {items : List OrderItem}
      {prods' : List Product} {total' : ℚ} {items' : List OrderItem},
      processItems prods cart total items = .ok (prods', total', items') →
      ∀ pid, findProduct prods' pid =
        (findProduct prods pid).map
          (fun p => { p with stock := p.stock - cartQty cart pid }) := by
  induction cart with
  | nil =>
    intro prods total items prods' total' items' h pid
    rw [processItems_nil] at h
    injection h with h
    obtain ⟨rfl, -, -⟩ : prods = prods' ∧ total = total' ∧ items = items' := by
      simpa [Prod.ext_iff] using h
    rw [cartQty_nil]
    cases hfp : findProduct prods pid with
    | none => rfl
    | some p => simp
  | cons ci rest ih =>
    intro prods total items prods' total' items' h pid
    obtain ⟨p, pr, hfp, ha, hs, hpr, hrec⟩ := processItems_cons_ok h
    have hpid : p.id = ci.product_id := findProduct_some_id hfp
    rw [ih hrec pid, findProduct_updateStock, Option.map_map, cartQty_cons]
    cases hq : findProduct prods pid with
    | none => rfl
    | some q =>
      have hqid : q.id = pid := findProduct_some_id hq
      simp only [Option.map_some', Function.comp_apply]
      by_cases hc : ci.product_id = pid
      · have hqp : q = p := by
          rw [← hc] at hq
          rw [hfp] at hq
          injection hq with hq
          exact hq.symm
        subst hqp
        rw [if_pos (by simp), if_pos (by simpa using hc)]
        simp only [Option.some.injEq, Product.mk.injEq, true_and, and_true]
        omega
      · rw [if_neg (by simp only [beq_iff_eq, hqid, hpid] ; exact fun he => hc he.symm),
          if_neg (by simpa using hc)]
        simp only [Option.some.injEq, Product.mk.injEq, true_and, and_true]
        omega

theorem processItems_ok_items (cart : List CartItem) :
    ∀ {prods : List Product} {total : ℚ} {items : List OrderItem}
      {prods' : List Product} {total' : ℚ} {items' : List OrderItem},
      processItems prods cart total items = .ok (prods', total', items') →
      ∃ newItems, items' = items ++ newItems ∧
        total' = total + (newItems.map OrderItem.total_price).sum ∧
        ∀ it ∈ newItems, it.total_price = (it.quantity : ℚ) * it.unit_price ∧
          ∃ p, findProduct prods it.product_id = some p ∧
            p.price = some it.unit_price := by
  induction cart with
  | nil =>
    intro prods total items prods' total' items' h
    rw [processItems_nil] at h
    injection h with h
    obtain ⟨-, rfl, rfl⟩ : prods = prods' ∧ total = total' ∧ items = items' := by
      simpa [Prod.ext_iff] using h
    exact ⟨[], by simp, by simp, by simp⟩
  | cons ci rest ih =>
    intro prods total items prods' total' items' h
    obtain ⟨p, pr, hfp, ha, hs, hpr, hrec⟩ := processItems_cons_ok h
    have hpid : p.id = ci.product_id := findProduct_some_id hfp
    obtain ⟨newRest, hitems, htotal, hper⟩ := ih hrec
    refine ⟨⟨p.id, ci.quantity, pr, (ci.quantity : ℚ) * pr⟩ :: newRest,
      by simpa using hitems, by rw [htotal] ; simp [add_assoc], ?_⟩
    intro it hit
    rcases List.mem_cons.mp hit with h0 | hmem
    · subst h0
      refine ⟨rfl, p, ?_, hpr⟩
      show findProduct prods p.id = some p
      rw [hpid]
      exact hfp
    · obtain ⟨hmul, p1, hp1, hprice1⟩ := hper it hmem
      rw [findProduct_updateStock] at hp1
      cases hq : findProduct prods it.product_id with
      | none => rw [hq] at hp1 ; exact absurd hp1 (by simp)
      | some q =>
        rw [hq] at hp1
        refine ⟨hmul, q, rfl, ?_⟩
        have hqp1 : (if q.id == p.id then { q with stock := p.stock - ci.quantity }
            else q) = p1 := by
          simpa using hp1
        have hqprice : q.price = p1.price := by
          rw [← hqp1]
          by_cases hb : q.id = p.id <;> simp [hb]
        rw [hqprice]
        exact hprice1

theorem processItems_ok_bound (cart : List CartItem) :
    ∀ {prods : List Product} {total : ℚ} {items : List OrderItem}
      {prods' : List Product} {total' : ℚ} {items' : List OrderItem},
      processItems prods cart total items = .ok (prods', total', items') →
      ∀ pid, pid ∈ cart.map CartItem.product_id →
        ∃ p, findProduct prods pid = some p ∧ cartQty cart pid ≤ p.stock := by
  induction cart with
  | nil =>
    intro prods total items prods' total' items' h pid hmem
    exact absurd hmem (by simp)
  | cons ci rest ih =>
    intro prods total items prods' total' items' h pid hmem
    obtain ⟨p, pr, hfp, ha, hs, hpr, hrec⟩ := processItems_cons_ok h
    have hpid : p.id = ci.product_id := findProduct_some_id hfp
    by_cases hc : pid = ci.product_id
    · refine ⟨p, by rw [hc] ; exact hfp, ?_⟩
      rw [cartQty_cons, if_pos (by simp [hc])]
      by_cases hr : pid ∈ rest.map CartItem.product_id
      · obtain ⟨p1, hp1, hb1⟩ := ih hrec pid hr
        rw [findProduct_updateStock, hc, hfp, Option.map_some'] at hp1
        have hT : (if p.id == p.id then { p with stock := p.stock - ci.quantity }
            else p) = p1 := by simpa using hp1
        rw [if_pos (by simp)] at hT
        have hstk : p1.stock = p.stock - ci.quantity := by rw [← hT]
        omega
      · rw [cartQty_not_mem hr]
        omega
    · have hr : pid ∈ rest.map CartItem.product_id := by
        rcases List.mem_map.mp hmem with ⟨a, hma, hpa⟩
        rcases List.mem_cons.mp hma with h0 | h1
        · exact absurd (by rw [← hpa, h0]) hc
        · exact List.mem_map.mpr ⟨a, h1, hpa⟩
      obtain ⟨p1, hp1, hb1⟩ := ih hrec pid hr
      rw [findProduct_updateStock] at hp1
      cases hq : findProduct prods pid with
      | none => rw [hq] at hp1 ; exact absurd hp1 (by simp)
      | some q =>
        rw [hq, Option.map_some'] at hp1
        have hqid : q.id = pid := findProduct_some_id hq
        have hne : (q.id == p.id) = false := by
          simp only [beq_eq_false_iff_ne, ne_eq, hqid, hpid]
          exact fun he => hc he
        rw [hne] at hp1
        have hqp1 : q = p1 := by simpa using hp1
        refine ⟨q, rfl, ?_⟩
        have hcond : (ci.product_id == pid) = false := by
          simp only [beq_eq_false_iff_ne, ne_eq]
          exact fun he => hc he.symm
        have hq0 : cartQty (ci :: rest) pid = cartQty rest pid := by
          rw [cartQty_cons, hcond]
          simp
        rw [hq0, hqp1]
        exact hb1

theorem mem_orders_id_le (orders : List Order) :
    ∀ o ∈ orders, o.id ≤ orders.foldr (fun o m => max o.id m) 0 := by
  induction orders with
  | nil =>
    intro o ho
    exact absurd ho (by simp)
  | cons a rest ih =>
    intro o ho
    rcases List.mem_cons.mp ho with h0 | h1
    · subst h0
      exact le_max_left _ _
    · exact le_trans (ih o h1) (le_max_right _ _)

theorem id_ne_nextOrderId (orders : List Order) :
    ∀ x ∈ orders, x.id ≠ nextOrderId orders := by
  intro x hx
  have := mem_orders_id_le orders x hx
  unfold nextOrderId
  omega

theorem find_append_fresh (orders : List Order) (o : Order)
    (h : ∀ x ∈ orders, x.id ≠ o.id) :
    (orders ++ [o]).find? (fun x => x.id == o.id) = some o := by
  induction orders with
  | nil => simp [List.find?]
  | cons a rest ih =>
    rw [List.cons_append,
      List.find?_cons_of_neg _ (by simpa using h a (by simp))]
    exact ih (fun x hx => h x (by simp [hx]))

theorem checkout_ok_inv {s : Store} {uid : Nat} {o : Order} {s' : Store}
    (h : checkout s uid = (.ok o, s')) :
    ∃ prods total items,
      processItems s.products (loadCart s uid) 0 [] = .ok (prods, total, items) ∧
      o = { id := nextOrderId s.orders, user_id := uid, status := "created",
            total_amount := total, items := items } ∧
      s' = { products := prods,
             cartItems := s.cartItems.filter (fun ci => !(ci.user_id == uid)),
             orders := s.orders ++ [o] } := by
  simp only [checkout] at h
  split at h
  · simp at h
  · split at h
    · simp at h
    case _ prods total items hpi =>
      have hfresh :
          loadOrderWithItems
            { products := prods,
              cartItems := s.cartItems.filter (fun ci => !(ci.user_id == uid)),
              orders := s.orders ++
                [({ id := nextOrderId s.orders, user_id := uid,
                    status := "created", total_amount := total,
                    items := items } : Order)] }
            (nextOrderId s.orders) =
          some { id := nextOrderId s.orders, user_id := uid,
                 status := "created", total_amount := total, items := items } := by
        unfold loadOrderWithItems
        exact find_append_fresh s.orders
          { id := nextOrderId s.orders, user_id := uid, status := "created",
            total_amount := total, items := items }
          (id_ne_nextOrderId s.orders)
      split at h
      case _ hload =>
        rw [hload] at hfresh
        exact absurd hfresh (by simp)
      case _ o2 hload =>
        rw [hload] at hfresh
        injection hfresh with hfresh
        injection h with h1 h2
        injection h1 with h1
        refine ⟨prods, total, items, hpi, ?_, ?_⟩
        · rw [← h1, hfresh]
        · rw [← h2, ← h1, hfresh]

theorem checkout_err_store {s : Store} {uid : Nat} {e : CheckoutError}
    {s' : Store} (h : checkout s uid = (.error e, s')) : s' = s := by
  simp only [checkout] at h
  split at h
  · injection h with h1 h2
    exact h2.symm
  · split at h
    · injection h with h1 h2
      exact h2.symm
    case _ prods total items hpi =>
      have hfresh :
          loadOrderWithItems
            { products := prods,
              cartItems := s.cartItems.filter (fun ci => !(ci.user_id == uid)),
              orders := s.orders ++
                [({ id := nextOrderId s.orders, user_id := uid,
                    status := "created", total_amount := total,
                    items := items } : Order)] }
            (nextOrderId s.orders) =
          some { id := nextOrderId s.orders, user_id := uid,
                 status := "created", total_amount := total, items := items } := by
        unfold loadOrderWithItems
        exact find_append_fresh s.orders
          { id := nextOrderId s.orders, user_id := uid, status := "created",
            total_amount := total, items := items }
          (id_ne_nextOrderId s.orders)
      split at h
      case _ hload =>
        rw [hload] at hfresh
        exact absurd hfresh (by simp)
      case _ o2 hload =>
        injection h with h1 h2
        exact absurd h1 (by simp)

theorem checkout_of_processItems_error {s : Store} {uid : Nat}
    {e : CheckoutError}
    (h : processItems s.products (loadCart s uid) 0 [] = .error e) :
    checkout s uid = (.error e, s) := by
  have hne : (loadCart s uid).isEmpty = false := by
    cases hc : loadCart s uid with
    | nil =>
      rw [hc, processItems_nil] at h
      exact absurd h (by simp)
    | cons a l => rfl
  simp only [checkout, hne, Bool.false_eq_true, if_false, h]

theorem loadCart_cleared (l : List CartItem) (uid : Nat) :
    (l.filter (fun ci => !(ci.user_id == uid))).filter
      (fun ci => ci.user_id == uid) = [] := by
  induction l with
  | nil => rfl
  | cons a rest ih =>
    by_cases h : a.user_id = uid <;> simp [List.filter_cons, h, ih]

/-!
### The claims
-/

/-- C1: whenever some cart line fails validation — product missing or
inactive, quantity exceeding (session) stock, or missing price, i.e.
whenever the checkout loop raises — the call returns that error and the
store is left exactly as it was: no stock value, order, order item or
cart line changes, including for carts where valid lines (whose
in-session stock decrements have already been applied to the session)
precede the failing line. -/
theorem claim_validation_failure_atomicity (s : Store) (uid : Nat)
    (e : CheckoutError)
    (h : processItems s.products (loadCart s uid) 0 [] = .error e) :
    checkout s uid = (.error e, s) :=
  checkout_of_processItems_error h

/-- Witness for C1, with a valid line ahead of the failing one: user 7's
cart in `storeMixed` holds a valid line (2 × product 1, stock 5) and
then a line requesting 10 × product 2 with stock 3; checkout returns
the insufficient-stock error and the identical store. -/
theorem claim_validation_failure_atomicity_witness :
    processItems storeMixed.products (loadCart storeMixed 7) 0 [] =
      .error (.insufficientStock "Gadget") ∧
    checkout storeMixed 7 =
      (.error (.insufficientStock "Gadget"), storeMixed) := by
  have h : processItems storeMixed.products (loadCart storeMixed 7) 0 [] =
      .error (.insufficientStock "Gadget") := by decide
  exact ⟨h, claim_validation_failure_atomicity storeMixed 7 _ h⟩

/-- C7: a user with no cart lines gets the `EmptyCart` error and the
store is returned unchanged — no writes of any kind. -/
theorem claim_empty_cart_error (s : Store) (uid : Nat)
    (h : loadCart s uid = []) :
    checkout s uid = (.error .emptyCart, s) := by
  simp [checkout, h]

/-- Witness for C7: scenario C on `storeEmptyCart`. -/
theorem claim_empty_cart_error_witness :
    loadCart storeEmptyCart 7 = [] ∧
    checkout storeEmptyCart 7 = (.error .emptyCart, storeEmptyCart) :=
  ⟨by decide, claim_empty_cart_error storeEmptyCart 7 (by decide)⟩

/-- C8: every error return of checkout — validation failures and the
500 paths alike — leaves the store exactly as it was before the call,
so a failed checkout is safe to retry; no error outcome coexists with a
committed order, decremented stock or a cleared cart.  (The only
post-commit error path, the "Failed to load created order" 500 of
lines 68–69, is unreachable: the order just committed is always found
by the re-load.) -/
theorem claim_error_retry_no_side_effects (s : Store) (uid : Nat)
    (e : CheckoutError) (s' : Store)
    (h : checkout s uid = (.error e, s')) :
    s' = s :=
  checkout_err_store h

/-- Witness for C8 at scenario B: the insufficient-stock failure on
`storeShort` returns the store it was given. -/
theorem claim_error_retry_no_side_effects_witness :
    checkout storeShort 7 = (.error (.insufficientStock "Gadget"), storeShort) ∧
    storeShort = storeShort := by
  have h : checkout storeShort 7 =
      (.error (.insufficientStock "Gadget"), storeShort) := by decide
  exact ⟨h, claim_error_retry_no_side_effects storeShort 7
    (.insufficientStock "Gadget") storeShort h⟩

/-- C5 counterexample: the insufficient-stock error does not carry the
requested quantity or the available stock.  Two carts with the same
product name but different requested quantities (10 vs 99) and
different available stock (3 vs 1) produce the *same* error value, so
the error cannot determine either number; its detail string carries the
product's name only. -/
theorem claim_insufficient_stock_payload_counterexample :
    checkout storeShort 7 = (.error (.insufficientStock "Gadget"), storeShort) ∧
    checkout storeShort2 7 =
      (.error (.insufficientStock "Gadget"), storeShort2) ∧
    (checkout storeShort 7).1 = (checkout storeShort2 7).1 ∧
    storeShort.cartItems.map CartItem.quantity = [10] ∧
    storeShort2.cartItems.map CartItem.quantity = [99] ∧
    storeShort.products.map Product.stock = [3] ∧
    storeShort2.products.map Product.stock = [1] ∧
    (CheckoutError.insufficientStock "Gadget").detail =
      "Not enough stock for Gadget" := by decide

theorem processItems_append {l₁ l₂ : List CartItem} {prods : List Product}
    {total : ℚ} {items : List OrderItem} {prods₁ : List Product} {t₁ : ℚ}
    {i₁ : List OrderItem}
    (h : processItems prods l₁ total items = .ok (prods₁, t₁, i₁)) :
    processItems prods (l₁ ++ l₂) total items = processItems prods₁ l₂ t₁ i₁ := by
  induction l₁ generalizing prods total items with
  | nil =>
    rw [processItems_nil] at h
    injection h with h
    obtain ⟨rfl, rfl, rfl⟩ : prods = prods₁ ∧ total = t₁ ∧ items = i₁ := by
      simpa [Prod.ext_iff] using h
    rfl
  | cons ci rest ih =>
    obtain ⟨p, pr, hfp, ha, hs, hpr, hrec⟩ := processItems_cons_ok h
    rw [List.cons_append]
    simp only [processItems, hfp, ha, Bool.not_true, Bool.false_eq_true,
      if_false, if_neg (Int.not_lt.mpr hs), hpr]
    exact ih hrec

/-- C5 amended: whenever checkout fails because a cart line's requested
quantity exceeds the product's current stock — the loaded cart splits
as `pre ++ ci :: rest` with every line of `pre` validating and `ci`
failing the stock check against the session stock the earlier lines
left — the error is the 400 `InsufficientStock` error carrying the
product's *name* only (detail "Not enough stock for {name}"); neither
the requested quantity nor the available stock is included, and the
store is unchanged. -/
theorem claim_insufficient_stock_payload_amended (s : Store) (uid : Nat)
    (pre : List CartItem) (ci : CartItem) (rest : List CartItem)
    (p : Product) (prods₁ : List Product) (t₁ : ℚ) (i₁ : List OrderItem)
    (hcart : loadCart s uid = pre ++ ci :: rest)
    (hpre : processItems s.products pre 0 [] = .ok (prods₁, t₁, i₁))
    (hp : findProduct prods₁ ci.product_id = some p)
    (hactive : p.is_active = true)
    (hstock : p.stock < ci.quantity) :
    checkout s uid = (.error (.insufficientStock p.name), s) ∧
    (CheckoutError.insufficientStock p.name).status = 400 ∧
    (CheckoutError.insufficientStock p.name).detail =
      "Not enough stock for " ++ p.name := by
  refine ⟨?_, rfl, rfl⟩
  apply checkout_of_processItems_error
  rw [hcart, processItems_append hpre]
  simp only [processItems, hp, hactive, Bool.not_true, Bool.false_eq_true,
    if_false, if_pos hstock]

/-- Witness for C5 amended on a multi-line cart: in `storeMixed` a
valid line (2 × product 1, stock 5) precedes the line requesting
10 × product 2 with stock 3, and checkout fails with the name-only
insufficient-stock error. -/
theorem claim_insufficient_stock_payload_amended_witness :
    loadCart storeMixed 7 = [⟨1, 7, 1, 2⟩] ++ [⟨2, 7, 2, 10⟩] ∧
    checkout storeMixed 7 =
      (.error (.insufficientStock "Gadget"), storeMixed) := by
  have hpre : processItems storeMixed.products [⟨1, 7, 1, 2⟩] 0 [] =
      .ok ([⟨1, "Widget", some 10, 3, true⟩, prodB], 20, [⟨1, 2, 10, 20⟩]) := by
    norm_num [processItems, findProduct, updateStock, storeMixed, prodA, prodB]
  have happ := claim_insufficient_stock_payload_amended storeMixed 7
    [⟨1, 7, 1, 2⟩] ⟨2, 7, 2, 10⟩ [] prodB
    [⟨1, "Widget", some 10, 3, true⟩, prodB] 20 [⟨1, 2, 10, 20⟩]
    (by decide) hpre (by decide) (by decide) (by decide)
  exact ⟨by decide, happ.1⟩

/-- C6 exhibit: for a cart whose first line references an *inactive*
product, checkout does fail with the 400 `ProductUnavailable` error
identifying the product by id (second half, `storeInactive`, whose
second — valid — line is never reached).  But for a line whose product
does not exist (`storeDangling`, dangling `product_id` 99), the guard
`if not product or not product.is_active:` is entered and the detail
f-string `f'Product {product.id} is unavailable'` dereferences `None`:
the call dies with an `AttributeError` (a 500), not the
`ProductUnavailable` error the spec promises.  The store is unchanged
in both cases. -/
theorem claim_product_unavailable_evaluation :
    checkout storeDangling 7 = (.error .noneAttributeError, storeDangling) ∧
    CheckoutError.noneAttributeError.status = 500 ∧
    checkout storeInactive 7 =
      (.error (.productUnavailable 3), storeInactive) ∧
    (CheckoutError.productUnavailable 3).status = 400 ∧
    (CheckoutError.productUnavailable 3).detail =
      "Product 3 is unavailable" := by decide

/-- C9: requesting an order that does not exist and requesting an order
owned by another user produce the *same* result: the 404
"Order not found" error — never a forbidden/403 — so the response does
not reveal whether the id exists. -/
theorem claim_get_order_not_found_uniform (s : Store) (uid oid : Nat)
    (h : loadOrderWithItems s oid = none ∨
      ∃ o, loadOrderWithItems s oid = some o ∧ o.user_id ≠ uid) :
    getOrder s uid oid = .error orderNotFound ∧
    orderNotFound.status = 404 := by
  refine ⟨?_, rfl⟩
  rcases h with hnone | ⟨o, hsome, hne⟩
  · simp [getOrder, hnone]
  · have hb : (o.user_id != uid) = true := by simpa using hne
    simp [getOrder, hsome, hb]

/-- Witness for C9: user 2 requests order 1, which belongs to user 1. -/
theorem claim_get_order_not_found_uniform_witness :
    getOrder storeOrders 2 1 = .error orderNotFound ∧
    orderNotFound.status = 404 :=
  claim_get_order_not_found_uniform storeOrders 2 1
    (.inr ⟨orderX, by decide, by decide⟩)

/-- C3 counterexample: with two cart lines for the same product
(2 units each, stock 5) checkout succeeds, and the product's stock
drops by the *sum* 4, not by "the cart line's quantity" 2: the claim's
per-line equation `pre_stock − post_stock == quantity` fails on both
lines (5 − 1 ≠ 2). -/
theorem claim_conservation_counterexample :
    checkout storeDup 7 = (.ok dupOrder, storeDupAfter) ∧
    storeDup.cartItems.map CartItem.quantity = [2, 2] ∧
    storeDup.cartItems.map CartItem.product_id = [1, 1] ∧
    findProduct storeDup.products 1 = some prodA ∧
    prodA.stock = 5 ∧
    findProduct storeDupAfter.products 1 =
      some ⟨1, "Widget", some 10, 1, true⟩ ∧
    (5 : Int) - 1 ≠ 2 := by
  refine ⟨?_, by decide, by decide, by decide, by decide, by decide, by decide⟩
  norm_num [checkout, loadCart, processItems, findProduct, updateStock,
    nextOrderId, loadOrderWithItems, storeDup, storeDupAfter, dupOrder, prodA]

/-- C3 amended: after a successful checkout the user's cart is empty,
and every product's stock equals its prior stock minus the *total*
quantity over that product's cart lines (which is the single line's
quantity whenever the cart holds at most one line per product, as the
loader's consumers assume); products outside the cart are unchanged
(their total is 0). -/
theorem claim_conservation_amended (s : Store) (uid : Nat) (o : Order)
    (s' : Store) (h : checkout s uid = (.ok o, s')) :
    loadCart s' uid = [] ∧
    ∀ pid, findProduct s'.products pid =
      (findProduct s.products pid).map
        (fun p => { p with stock := p.stock - cartQty (loadCart s uid) pid }) := by
  obtain ⟨prods, total, items, hpi, ho, hs'⟩ := checkout_ok_inv h
  subst hs'
  constructor
  · exact loadCart_cleared s.cartItems uid
  · intro pid
    exact processItems_ok_stock (loadCart s uid) hpi pid

/-- Witness for C3 amended at scenario A: 2 × product 1 from stock 5
leaves stock 3 and an empty cart. -/
theorem claim_conservation_amended_witness :
    checkout storeOk 7 = (.ok okOrder, storeOkAfter) ∧
    loadCart storeOkAfter 7 = [] ∧
    findProduct storeOkAfter.products 1 =
      (findProduct storeOk.products 1).map
        (fun p => { p with stock := p.stock - cartQty (loadCart storeOk 7) 1 }) := by
  have h : checkout storeOk 7 = (.ok okOrder, storeOkAfter) := by
    norm_num [checkout, loadCart, processItems, findProduct, updateStock,
      nextOrderId, loadOrderWithItems, storeOk, storeOkAfter, okOrder, prodA]
  exact ⟨h, (claim_conservation_amended storeOk 7 okOrder storeOkAfter h).1,
    (claim_conservation_amended storeOk 7 okOrder storeOkAfter h).2 1⟩

/-- C4: every order a successful checkout produces satisfies, with
exact rational (Decimal) arithmetic: each item's `total_price` equals
`quantity * unit_price`, each item's `unit_price` is the product's
price at checkout time, and `total_amount` is the sum of the items'
`total_price` values accumulated from the exact zero. -/
theorem claim_totals_exact (s : Store) (uid : Nat) (o : Order) (s' : Store)
    (h : checkout s uid = (.ok o, s')) :
    o.total_amount = (o.items.map OrderItem.total_price).sum ∧
    ∀ it ∈ o.items, it.total_price = (it.quantity : ℚ) * it.unit_price ∧
      ∃ p, findProduct s.products it.product_id = some p ∧
        p.price = some it.unit_price := by
  obtain ⟨prods, total, items, hpi, ho, hs'⟩ := checkout_ok_inv h
  obtain ⟨newItems, hitems, htotal, hper⟩ :=
    processItems_ok_items (loadCart s uid) hpi
  have hnew : items = newItems := by simpa using hitems
  constructor
  · simp only [ho, hnew, htotal, zero_add]
  · intro it hit
    have hit' : it ∈ newItems := by
      rw [ho] at hit
      simp only at hit
      rw [hnew] at hit
      exact hit
    obtain ⟨hmul, p, hp, hprice⟩ := hper it hit'
    exact ⟨hmul, p, hp, hprice⟩

/-- Witness for C4 at scenario A: the order totals 20 = 2 × 10. -/
theorem claim_totals_exact_witness :
    checkout storeOk 7 = (.ok okOrder, storeOkAfter) ∧
    okOrder.total_amount = (okOrder.items.map OrderItem.total_price).sum ∧
    ∀ it ∈ okOrder.items,
      it.total_price = (it.quantity : ℚ) * it.unit_price := by
  have h : checkout storeOk 7 = (.ok okOrder, storeOkAfter) := by
    norm_num [checkout, loadCart, processItems, findProduct, updateStock,
      nextOrderId, loadOrderWithItems, storeOk, storeOkAfter, okOrder, prodA]
  refine ⟨h, (claim_totals_exact storeOk 7 okOrder storeOkAfter h).1, ?_⟩
  intro it hit
  exact ((claim_totals_exact storeOk 7 okOrder storeOkAfter h).2 it hit).1

/-- C10: a checkout of a cart with several lines for one product
succeeds only when the *summed* quantity over that product's lines is
within the product's initial stock — each later line is validated
against the stock the session already reduced for the earlier lines —
and the product's resulting stock, initial stock minus the sum, is
never negative. -/
theorem claim_duplicate_lines_cumulative_bound (s : Store) (uid : Nat)
    (o : Order) (s' : Store) (h : checkout s uid = (.ok o, s')) :
    ∀ pid ∈ (loadCart s uid).map CartItem.product_id,
      ∃ p, findProduct s.products pid = some p ∧
        cartQty (loadCart s uid) pid ≤ p.stock ∧
        findProduct s'.products pid =
          some { p with stock := p.stock - cartQty (loadCart s uid) pid } ∧
        0 ≤ p.stock - cartQty (loadCart s uid) pid := by
  intro pid hmem
  obtain ⟨prods, total, items, hpi, ho, hs'⟩ := checkout_ok_inv h
  obtain ⟨p, hp, hb⟩ := processItems_ok_bound (loadCart s uid) hpi pid hmem
  refine ⟨p, hp, hb, ?_, by omega⟩
  have hstk := processItems_ok_stock (loadCart s uid) hpi pid
  rw [hs']
  show findProduct prods pid = _
  rw [hstk, hp]
  rfl

/-- Witness for C10: the duplicate-line cart of `storeDup` (2 + 2 units
of product 1, stock 5) checks out; 4 ≤ 5 and the final stock 1 is
non-negative. -/
theorem claim_duplicate_lines_cumulative_bound_witness :
    checkout storeDup 7 = (.ok dupOrder, storeDupAfter) ∧
    (1 : Nat) ∈ (loadCart storeDup 7).map CartItem.product_id ∧
    ∃ p, findProduct storeDup.products 1 = some p ∧
      cartQty (loadCart storeDup 7) 1 ≤ p.stock ∧
      findProduct storeDupAfter.products 1 =
        some { p with stock := p.stock - cartQty (loadCart storeDup 7) 1 } ∧
      0 ≤ p.stock - cartQty (loadCart storeDup 7) 1 := by
  have h : checkout storeDup 7 = (.ok dupOrder, storeDupAfter) := by
    norm_num [checkout, loadCart, processItems, findProduct, updateStock,
      nextOrderId, loadOrderWithItems, storeDup, storeDupAfter, dupOrder, prodA]
  exact ⟨h, by decide,
    claim_duplicate_lines_cumulative_bound storeDup 7 dupOrder storeDupAfter h
      1 (by decide)⟩

/-- C2 refuted on the code: the decrement is *not* an atomic
conditional update — the session writes back the stock value computed
from its load-time snapshot with no `stock >= quantity` re-check — so
under the schedule in which both invocations load before either
commits (a real asyncio interleaving: each task suspends at the cart
query and resumes through validation to its own commit), two
concurrent checkouts each requesting quantity 1 of product 1, whose
stock is exactly 1, BOTH succeed: two orders are committed against one
unit of stock.  Under the serialized schedule the second invocation
does fail with `InsufficientStock`, confirming the race window lies
between load and commit. -/
theorem claim_concurrent_checkouts_both_succeed :
    storeRace.products = [⟨1, "Widget", some 10, 1, true⟩] ∧
    raceFinal.outA = some (.ok ⟨1, 1, "created", 10, [⟨1, 1, 10, 10⟩]⟩) ∧
    raceFinal.outB = some (.ok ⟨2, 2, "created", 10, [⟨1, 1, 10, 10⟩]⟩) ∧
    raceFinal.store.products = [⟨1, "Widget", some 10, 0, true⟩] ∧
    raceFinal.store.orders.length = 2 ∧
    serialFinal.outA = some (.ok ⟨1, 1, "created", 10, [⟨1, 1, 10, 10⟩]⟩) ∧
    serialFinal.outB = some (.error (.insufficientStock "Widget")) := by
  refine ⟨by decide, ?_, ?_, ?_, ?_, ?_, ?_⟩ <;>
    norm_num [raceFinal, serialFinal, runActs, stepAct, loadPhase, commitPhase,
      flushStocks, processItems, findProduct, updateStock, loadCart,
      nextOrderId, loadOrderWithItems, raceInit, storeRace, prodRace]
